import Mathlib

/-!
Shallow embedding of the tuberculosis-detection inference pipeline of the
tb-vision-helper repository: the score-to-result conversions of the browser
hooks (useTBModel.predict, useTBDetection.detectTB), the server edge-function
variants (supabase/functions/tb-detection/index.ts and its unnamed siblings),
the express API handler, the fallback chains, the model-load paths and the
upload intake checks.  JavaScript numbers are modelled as real numbers, with
`Option ℤ` for an integer confidence that may be NaN; `Math.round` is `round`
(round half toward positive infinity in both) and `Math.floor` is `Int.floor`.
-/

namespace TBVision

/-- Classification label of a detection, `'normal' | 'tuberculosis'` in the source. -/
inductive Label where
  | normal
  | tuberculosis
  deriving DecidableEq, Repr

/-- Result of the browser hook `predict` (useTBModel.tsx): the confidence is
`Option ℤ`, where `none` models the JavaScript `NaN` that
`Math.round((1 - undefined) * 100)` produces on an empty output vector. -/
structure JsResult where
  prediction : Label
  confidence : Option ℤ
  deriving DecidableEq, Repr

/-- Normalized detection result `{ prediction, confidence }` as produced by the
server variants and the express handler. -/
structure DetectionResult where
  prediction : Label
  confidence : ℤ
  deriving DecidableEq, Repr

/-- Embeds the output interpretation of `predict` (useTBModel.tsx lines
157-183).  Length 2: if `|s0 + s1 - 1| < 0.01` the pair is taken as
probabilities and the tuberculosis probability is the second entry, otherwise
softmax is applied (`exp1 / (exp0 + exp1)`).  Length 1: the single value is the
tuberculosis probability.  Any other length falls into the `console.warn`
branch, which reads `predictions[predictions.length - 1]`: the last element,
or JavaScript `undefined` (here `none`) on an empty array. -/
noncomputable def predictTBProb : List ℝ → Option ℝ
  | [s0, s1] =>
      if |s0 + s1 - 1| < 0.01 then some s1
      else some (Real.exp s1 / (Real.exp s0 + Real.exp s1))
  | [s] => some s
  | scores => scores.getLast?

/-- Embeds lines 185-189 of useTBModel.tsx on top of `predictTBProb`:
`prediction = tbProbability > 0.5 ? 'tuberculosis' : 'normal'` and
`confidence = Math.round((prediction === 'tuberculosis' ? tbProbability :
1 - tbProbability) * 100)`.  When the probability is `undefined` (empty
output), `undefined > 0.5` is false, so the prediction is `normal`, and the
rounded confidence is NaN, modelled as `none`. -/
noncomputable def predictResult (scores : List ℝ) : JsResult :=
  match predictTBProb scores with
  | some p =>
      ⟨if p > 0.5 then .tuberculosis else .normal,
       some (round ((if p > 0.5 then p else 1 - p) * 100))⟩
  | none => ⟨.normal, none⟩

/-- Follows the claim wording for the tuberculosis probability of a 2-element
score vector: probabilities are used directly when `|s0 + s1 - 1| < 0.01`,
otherwise softmax is applied and the second component is taken. -/
noncomputable def specTBProb2 (s0 s1 : ℝ) : ℝ :=
  if |s0 + s1 - 1| < 0.01 then s1 else Real.exp s1 / (Real.exp s0 + Real.exp s1)

/-- Follows the claim wording for `scores_to_result` on a 2-element vector:
the label is Tuberculosis iff the tuberculosis probability exceeds `0.5`, and
the confidence is `round (100 * max p (1 - p))`. -/
noncomputable def specScoresToResult2 (s0 s1 : ℝ) : JsResult :=
  ⟨if specTBProb2 s0 s1 > 0.5 then .tuberculosis else .normal,
   some (round (100 * max (specTBProb2 s0 s1) (1 - specTBProb2 s0 s1)))⟩

/-- Embeds `detectTB` of useTBDetection.tsx (lines 152-164) on a binary output
`[s0, s1]`: softmax is always applied (`expScores` / `sumExp`), then
`prediction = tbProb > normalProb ? 'tuberculosis' : 'normal'` and
`confidence = Math.round(Math.max(normalProb, tbProb) * 100)`. -/
noncomputable def detectTBResult (s0 s1 : ℝ) : DetectionResult :=
  let e0 := Real.exp s0
  let e1 := Real.exp s1
  let sumExp := e0 + e1
  let normalProb := e0 / sumExp
  let tbProb := e1 / sumExp
  ⟨if tbProb > normalProb then .tuberculosis else .normal,
   round (max normalProb tbProb * 100)⟩

/-- Embeds the score interpretation of the first serve variant of
supabase/functions/tb-detection/index.ts (lines 129-136) and, identically, the
part_009 ONNX variant (lines 148-153): the two raw scores are compared
directly, `isTuberculosis = tbProb > normalProb`, and
`confidence = Math.round(Math.max(normalProb, tbProb) * 100)` — no softmax. -/
noncomputable def serveResult (normalProb tbProb : ℝ) : DetectionResult :=
  ⟨if tbProb > normalProb then .tuberculosis else .normal,
   round (max normalProb tbProb * 100)⟩

/-- Embeds the express API handler of part_000 (lines 109-116): identical raw
comparison, `prediction = tbProb > normalProb`, confidence
`Math.round(Math.max(normalProb, tbProb) * 100)`. -/
noncomputable def expressResult (normalProb tbProb : ℝ) : DetectionResult :=
  ⟨if tbProb > normalProb then .tuberculosis else .normal,
   round (max normalProb tbProb * 100)⟩

/-- Embeds the all-fail fallback of the heuristic serve variant
(supabase/functions/tb-detection/index.ts lines 619-631): `r1` is the first
`Math.random()` draw and `r2` the second.  `r1 > 0.7` gives tuberculosis with
`Math.floor(r2 * 15) + 70`, otherwise normal with `Math.floor(r2 * 20) + 75`. -/
noncomputable def heuristicFallback (r1 r2 : ℝ) : DetectionResult :=
  if r1 > 0.7 then ⟨.tuberculosis, ⌊r2 * 15⌋ + 70⟩
  else ⟨.normal, ⌊r2 * 20⌋ + 75⟩

/-- Embeds the all-fail fallback of the AI-vision serve variant (part_009
lines 379-382): a fixed conservative result, `prediction = 'normal'`,
`confidence = 70`. -/
def aiVisionFallback : DetectionResult := ⟨.normal, 70⟩

/-- Outcome of invoking one backend: success with a result, a transient
unavailability failure, or a fault (the backend ran but produced garbage).
Both failure kinds are thrown errors in the source and are caught alike. -/
inductive BackendOutcome where
  | ok (r : DetectionResult)
  | errUnavailable
  | errFault
  deriving DecidableEq, Repr

/-- Embeds the catch-based fallback composition used by the source: a thrown
error falls through to the next backend, a success returns immediately.
`handleImageUpload` (useTBDetection.tsx lines 234-293) is the instance
`[edge-function, mock]`; the serve variant of index.ts (lines 148-170) is the
instance `[onnx-model, filename-heuristic]`. -/
def runChain : List BackendOutcome → Option DetectionResult
  | [] => none
  | b :: rest =>
      match b with
      | .ok r => some r
      | _ => runChain rest

/-- The prefix of the chain that actually gets invoked, in invocation order:
everything up to and including the first success. -/
def chainTrace : List BackendOutcome → List BackendOutcome
  | [] => []
  | b :: rest =>
      match b with
      | .ok r => [.ok r]
      | e => e :: chainTrace rest

/-- UI limit from the `useDropzone` config of FileUpload.tsx (lines 27-35):
`maxSize: 10 * 1024 * 1024`. -/
def uiMaxSize : Nat := 10 * 1024 * 1024

/-- react-dropzone accepts a dropped file only when its size does not exceed
the configured `maxSize`; larger files go to `onDropRejected`. -/
def uiAcceptsSize (size : Nat) : Bool := decide (size ≤ uiMaxSize)

/-- What the serve intake does with the multipart `image` field. -/
inductive IntakeOutcome where
  | noImageError
  | proceed
  deriving DecidableEq, Repr

/-- Embeds the image intake of the serve variants
(supabase/functions/tb-detection/index.ts lines 47-57): the only check is
`if (!imageFile)`; a present file of any size proceeds to upload and decode.
The file is represented by its byte size. -/
def serveIntake (image : Option Nat) : IntakeOutcome :=
  match image with
  | none => .noImageError
  | some _ => .proceed

/-- Pre-parse outcome of a model-load path. -/
inductive LoadOutcome where
  | fetchFailed
  | emptyBlob
  | parseAttempt (blob : List Nat)
  deriving DecidableEq, Repr

/-- Embeds `loadModel` of useTBModel.tsx (lines 24-58): a download error
throws, an empty blob throws, and otherwise the blob goes straight to
`InferenceSession.create` (the parse attempt).  The blob is a byte list. -/
def loadModelUseTBModel (downloadFailed : Bool) (blob : List Nat) : LoadOutcome :=
  if downloadFailed then .fetchFailed
  else if blob.length = 0 then .emptyBlob
  else .parseAttempt blob

/-- Embeds `loadModel` of useTBDetection.tsx (lines 15-62): a non-ok fetch
response throws; otherwise the first 16 header bytes are only logged
(lines 39-42) and the blob goes straight to `InferenceSession.create`. -/
def loadModelUseTBDetection (responseOk : Bool) (blob : List Nat) : LoadOutcome :=
  if responseOk then .parseAttempt blob else .fetchFailed

/-- Number of floats in the model input tensor, `3 * 224 * 224`. -/
def tensorSize : Nat := 3 * 224 * 224

/-- Embeds `preprocessImage` of part_009 (lines 115-130): the image bytes are
ignored and every tensor entry is filled from `Math.random()`, modelled as
consuming successive values of the ambient random stream `rng`. -/
def preprocessImage (rng : Nat → ℝ) (imgBytes : List Nat) : Fin tensorSize → ℝ :=
  fun i => rng i.val

/-- Embeds one `detect` request of the part_009 ONNX serve variant: preprocess
the uploaded bytes (which the preprocessing ignores in favour of the random
stream), run the backend on the tensor, and interpret the two scores exactly
as lines 148-153 do (`serveResult`). -/
noncomputable def detectP9 (imgBytes : List Nat) (rng : Nat → ℝ)
    (backend : (Fin tensorSize → ℝ) → ℝ × ℝ) : DetectionResult :=
  let t := preprocessImage rng imgBytes
  let scores := backend t
  serveResult scores.1 scores.2

/-- The global PRNG advances between requests: the first call consumes the
first `tensorSize` values of the stream, the second call starts after them. -/
def shiftRng (rng : Nat → ℝ) : Nat → ℝ := fun n => rng (n + tensorSize)

/-- Two successive `detect` calls on the same bytes and the same backend,
sharing one ambient random stream. -/
noncomputable def detectP9Twice (imgBytes : List Nat) (rng : Nat → ℝ)
    (backend : (Fin tensorSize → ℝ) → ℝ × ℝ) : DetectionResult × DetectionResult :=
  (detectP9 imgBytes rng backend, detectP9 imgBytes (shiftRng rng) backend)

/-- Concrete random stream for the idempotence counterexample: the first
request's draws are all `0.9`, the second request's draws are all `0.1`. -/
noncomputable def rngSplit : Nat → ℝ := fun n => if n < tensorSize then 0.9 else 0.1

/-- A concrete deterministic local backend: reads the first tensor entry `x`
and returns the score pair `(1 - x, x)`. -/
def firstEntryBackend (t : Fin tensorSize → ℝ) : ℝ × ℝ :=
  (1 - t ⟨0, by simp [tensorSize]⟩, t ⟨0, by simp [tensorSize]⟩)

/-- Rounding helper: `round x = n` whenever `x` lies in `[n - 1/2, n + 1/2)`. -/
lemma round_eq_int {x : ℝ} {n : ℤ} (h₁ : (n : ℝ) - 1 / 2 ≤ x) (h₂ : x < (n : ℝ) + 1 / 2) :
    round x = n := by
  rw [round_eq]
  refine Int.floor_eq_iff.mpr ⟨by linarith, by linarith⟩

/-- Rounding is monotone. -/
lemma round_mono_le {x y : ℝ} (h : x ≤ y) : round x ≤ round y := by
  rw [round_eq, round_eq]
  exact Int.floor_mono (by linarith)

/-- Flooring helper: `⌊x⌋ = n` whenever `x` lies in `[n, n + 1)`. -/
lemma floor_eq_int {x : ℝ} {n : ℤ} (h₁ : (n : ℝ) ≤ x) (h₂ : x < (n : ℝ) + 1) :
    ⌊x⌋ = n :=
  Int.floor_eq_iff.mpr ⟨h₁, by exact_mod_cast h₂⟩

/-- The winning-probability confidence of `predict` coincides with the
`max`-form of the claim wording. -/
lemma conf_eq_max (p : ℝ) :
    round ((if p > 0.5 then p else 1 - p) * 100) = round (100 * max p (1 - p)) := by
  by_cases h : p > 0.5
  · rw [if_pos h, max_eq_left (by linarith), mul_comm]
  · rw [if_neg h, max_eq_right (by rw [not_lt] at h; linarith), mul_comm]

/-- Softmax preserves score order: the second softmax output exceeds the first
iff the second raw score exceeds the first. -/
lemma softmax_lt_softmax (s0 s1 : ℝ) :
    Real.exp s0 / (Real.exp s0 + Real.exp s1) <
      Real.exp s1 / (Real.exp s0 + Real.exp s1) ↔ s0 < s1 := by
  have hsum : 0 < Real.exp s0 + Real.exp s1 := by positivity
  rw [div_lt_div_iff_of_pos_right hsum, Real.exp_lt_exp]

/-- The second softmax output of a pair exceeds `0.5` iff the second raw score
exceeds the first. -/
lemma half_lt_softmax (s0 s1 : ℝ) :
    (0.5 : ℝ) < Real.exp s1 / (Real.exp s0 + Real.exp s1) ↔ s0 < s1 := by
  have hsum : 0 < Real.exp s0 + Real.exp s1 := by positivity
  rw [lt_div_iff₀ hsum, ← Real.exp_lt_exp (x := s0) (y := s1)]
  constructor <;> intro h <;> nlinarith

/-- C2: for every 2-element score vector, `predict` first checks
`|s0 + s1 - 1| < 0.01`; if it holds the pair is used as probabilities
directly, otherwise softmax is applied; the tuberculosis probability is the
second component; the label is Tuberculosis iff that probability exceeds
`0.5`; the confidence is `round (100 * max p (1 - p))`; and
`[0.3, 0.7]` yields Tuberculosis with confidence 70. -/
theorem C2_scores_to_result_two :
    (∀ s0 s1 : ℝ, predictResult [s0, s1] = specScoresToResult2 s0 s1) ∧
    predictResult [0.3, 0.7] = ⟨.tuberculosis, some 70⟩ := by
  constructor
  · intro s0 s1
    rw [predictResult, predictTBProb, specScoresToResult2, specTBProb2]
    by_cases h : |s0 + s1 - 1| < 0.01
    · rw [if_pos h, if_pos h]
      dsimp only
      rw [conf_eq_max]
    · rw [if_neg h, if_neg h]
      dsimp only
      rw [conf_eq_max]
  · rw [predictResult, predictTBProb]
    rw [if_pos (by norm_num : |(0.3 : ℝ) + 0.7 - 1| < 0.01)]
    dsimp only
    rw [if_pos (by norm_num : (0.7 : ℝ) > 0.5), if_pos (by norm_num : (0.7 : ℝ) > 0.5)]
    rw [round_eq_int (n := 70) (by norm_num) (by norm_num)]

/-- C5: for every 1-element score vector, `predict` treats the single value as
the tuberculosis probability, labels Tuberculosis iff it exceeds `0.5`, and
reports `round (100 * (p if Tuberculosis else 1 - p))`; `[0.9]` gives
Tuberculosis/90 and `[0.2]` gives Normal/80. -/
theorem C5_scores_to_result_one :
    (∀ s : ℝ, predictResult [s] =
      ⟨if s > 0.5 then .tuberculosis else .normal,
       some (round (100 * (if s > 0.5 then s else 1 - s)))⟩) ∧
    predictResult [0.9] = ⟨.tuberculosis, some 90⟩ ∧
    predictResult [0.2] = ⟨.normal, some 80⟩ := by
  refine ⟨fun s => ?_, ?_, ?_⟩
  · rw [predictResult, predictTBProb]
    dsimp only
    rw [mul_comm]
  · rw [predictResult, predictTBProb]
    dsimp only
    rw [if_pos (by norm_num : (0.9 : ℝ) > 0.5), if_pos (by norm_num : (0.9 : ℝ) > 0.5)]
    rw [round_eq_int (n := 90) (by norm_num) (by norm_num)]
  · rw [predictResult, predictTBProb]
    dsimp only
    rw [if_neg (by norm_num : ¬ (0.2 : ℝ) > 0.5), if_neg (by norm_num : ¬ (0.2 : ℝ) > 0.5)]
    rw [round_eq_int (n := 80) (by norm_num) (by norm_num)]

/-- C4 counterexample: `predict` does not fail on score vectors of other
lengths.  The empty vector yields a Normal result with NaN confidence, and
`[1, 2, 3]` yields a Tuberculosis result with confidence 300 — both are
results, not `MalformedOutputError`. -/
theorem C4_no_malformed_output_error :
    predictResult ([] : List ℝ) = ⟨.normal, none⟩ ∧
    predictResult [1, 2, 3] = ⟨.tuberculosis, some 300⟩ := by
  constructor
  · have h : predictTBProb ([] : List ℝ) = none := by simp [predictTBProb]
    rw [predictResult, h]
  · have h : predictTBProb [(1 : ℝ), 2, 3] = some 3 := by simp [predictTBProb]
    rw [predictResult, h]
    dsimp only
    rw [if_pos (by norm_num : (3 : ℝ) > 0.5), if_pos (by norm_num : (3 : ℝ) > 0.5)]
    rw [round_eq_int (n := 300) (by norm_num) (by norm_num)]

/-- C4 amended: on a score vector whose length is neither 1 nor 2, `predict`
takes the warn branch and uses the last element as the tuberculosis
probability (an empty vector yields Normal with NaN confidence, modelled as
`none`). -/
theorem C4_amended_last_element :
    (∀ (xs : List ℝ) (p : ℝ), 3 ≤ xs.length → xs.getLast? = some p →
      predictResult xs =
        ⟨if p > 0.5 then .tuberculosis else .normal,
         some (round ((if p > 0.5 then p else 1 - p) * 100))⟩) ∧
    predictResult ([] : List ℝ) = ⟨Label.normal, none⟩ := by
  constructor
  · intro xs p hlen hlast
    match xs, hlen with
    | a :: b :: c :: rest, _ =>
      have h : predictTBProb (a :: b :: c :: rest) = some p := by
        rw [← hlast]; simp [predictTBProb]
      rw [predictResult, h]
  · have h : predictTBProb ([] : List ℝ) = none := by simp [predictTBProb]
    rw [predictResult, h]

/-- C4 amended witness: instantiated at `[1, 2, 3]`, whose last element is 3. -/
theorem C4_amended_last_element_witness :
    3 ≤ ([(1 : ℝ), 2, 3].length) ∧ [(1 : ℝ), 2, 3].getLast? = some 3 ∧
    predictResult [(1 : ℝ), 2, 3] =
      ⟨if (3 : ℝ) > 0.5 then .tuberculosis else .normal,
       some (round ((if (3 : ℝ) > 0.5 then (3 : ℝ) else 1 - 3) * 100))⟩ :=
  ⟨by norm_num, by simp,
   C4_amended_last_element.1 [1, 2, 3] 3 (by norm_num) (by simp)⟩

/-- C1 counterexample: in the heuristic serve variant, with first random draw
0.9 and second draw 0.5, the all-fail fallback returns Tuberculosis with
confidence 77 — not Normal with confidence 70. -/
theorem C1_fallback_not_fixed :
    heuristicFallback 0.9 0.5 = ⟨.tuberculosis, 77⟩ ∧
    heuristicFallback 0.9 0.5 ≠ ⟨.normal, 70⟩ := by
  have h : heuristicFallback 0.9 0.5 = ⟨.tuberculosis, 77⟩ := by
    rw [heuristicFallback, if_pos (by norm_num : (0.9 : ℝ) > 0.7)]
    rw [floor_eq_int (n := 7) (by norm_num) (by norm_num)]
    norm_num
  exact ⟨h, by rw [h]; simp⟩

/-- C1 amended: the AI-vision variant's all-fail fallback is the fixed result
Normal/70, and the heuristic variant's all-fail fallback always produces a
result (never an exception) whose confidence lies in 70..94, with label
Normal whenever the first draw does not exceed 0.7 — but that result is
randomized, not fixed to Normal/70, and carries no degraded flag. -/
theorem C1_all_fail_fallback :
    aiVisionFallback = ⟨.normal, 70⟩ ∧
    ∀ r1 r2 : ℝ, 0 ≤ r2 → r2 < 1 →
      70 ≤ (heuristicFallback r1 r2).confidence ∧
      (heuristicFallback r1 r2).confidence ≤ 94 ∧
      (¬ r1 > 0.7 → (heuristicFallback r1 r2).prediction = .normal) := by
  refine ⟨rfl, fun r1 r2 h0 h1 => ?_⟩
  by_cases h : r1 > 0.7
  · rw [heuristicFallback, if_pos h]
    have hf0 : (0 : ℤ) ≤ ⌊r2 * 15⌋ := Int.le_floor.mpr (by push_cast; nlinarith)
    have hf1 : ⌊r2 * 15⌋ < 15 := Int.floor_lt.mpr (by push_cast; nlinarith)
    exact ⟨by dsimp only; omega, by dsimp only; omega, fun hc => absurd h hc⟩
  · rw [heuristicFallback, if_neg h]
    have hf0 : (0 : ℤ) ≤ ⌊r2 * 20⌋ := Int.le_floor.mpr (by push_cast; nlinarith)
    have hf1 : ⌊r2 * 20⌋ < 20 := Int.floor_lt.mpr (by push_cast; nlinarith)
    exact ⟨by dsimp only; omega, by dsimp only; omega, fun _ => rfl⟩

/-- C1 amended witness: instantiated at draws 0.5 and 0. -/
theorem C1_all_fail_fallback_witness :
    (0 : ℝ) ≤ 0 ∧ (0 : ℝ) < 1 ∧
    (70 ≤ (heuristicFallback 0.5 0).confidence ∧
     (heuristicFallback 0.5 0).confidence ≤ 94 ∧
     (¬ (0.5 : ℝ) > 0.7 → (heuristicFallback 0.5 0).prediction = .normal)) :=
  ⟨le_refl 0, by norm_num, C1_all_fail_fallback.2 0.5 0 (le_refl 0) (by norm_num)⟩

/-- C3: on the chain [unavailable-failure, fault-failure, success r], the
catch-based fallback invokes all three backends in order (the invocation
trace is the whole chain) and returns the third backend's result — it never
skips a backend and never returns early after a failure. -/
theorem C3_fallback_ordering (r : DetectionResult) :
    runChain [.errUnavailable, .errFault, .ok r] = some r ∧
    chainTrace [.errUnavailable, .errFault, .ok r] =
      [.errUnavailable, .errFault, .ok r] :=
  ⟨rfl, rfl⟩

/-- C7 counterexample: the serve intake lets a payload one byte over 10 MiB
proceed to upload and decode; there is no size check and no
`PayloadTooLargeError` path in the core. -/
theorem C7_server_accepts_oversized :
    serveIntake (some (10 * 1024 * 1024 + 1)) = .proceed := rfl

/-- C7 amended: only the UI dropzone enforces the 10 MiB limit (a file is
accepted exactly when its size is at most `10 * 1024 * 1024` bytes); the
server-side intake checks only that an image is present and proceeds for
every present file regardless of size. -/
theorem C7_size_limit_ui_only :
    (∀ size : Nat, uiAcceptsSize size = true ↔ size ≤ 10 * 1024 * 1024) ∧
    ∀ size : Nat, serveIntake (some size) = .proceed :=
  ⟨fun size => by simp [uiAcceptsSize, uiMaxSize], fun _ => rfl⟩

/-- C8 counterexample: a model blob beginning with byte 0x3C (the character
of an HTML error page) is not rejected by either model-load path — both pass
it straight to the ONNX parse attempt. -/
theorem C8_html_blob_reaches_parse :
    loadModelUseTBDetection true [60, 104, 116, 109, 108] =
      .parseAttempt [60, 104, 116, 109, 108] ∧
    loadModelUseTBModel false [60, 104, 116, 109, 108] =
      .parseAttempt [60, 104, 116, 109, 108] :=
  ⟨rfl, rfl⟩

/-- C8 amended: neither model-load path inspects the blob's leading bytes:
every nonempty successfully downloaded blob — whatever its first byte —
proceeds to ONNX session creation; the useTBModel path rejects only an empty
blob before parsing, and useTBDetection only logs the header. -/
theorem C8_no_magic_byte_check :
    ∀ blob : List Nat, blob ≠ [] →
      loadModelUseTBModel false blob = .parseAttempt blob ∧
      loadModelUseTBDetection true blob = .parseAttempt blob := by
  intro blob hne
  refine ⟨?_, rfl⟩
  rw [loadModelUseTBModel, if_neg (by simp), if_neg (by simpa using hne)]

/-- C8 amended witness: instantiated at the single-byte blob `[60]` (0x3C). -/
theorem C8_no_magic_byte_check_witness :
    ([60] : List Nat) ≠ [] ∧
    (loadModelUseTBModel false [60] = .parseAttempt [60] ∧
     loadModelUseTBDetection true [60] = .parseAttempt [60]) :=
  ⟨by simp, C8_no_magic_byte_check [60] (by simp)⟩

/-- C6 counterexample: two successive `detect` calls of the part_009 variant
on the same (empty) image bytes, with the same deterministic local backend
`firstEntryBackend`, return different results, because the preprocessing
fills the tensor from the advancing PRNG stream instead of the image: the
first call sees draw 0.9 and reports Tuberculosis, the second sees draw 0.1
and reports Normal. -/
theorem C6_detect_not_idempotent :
    (detectP9Twice [] rngSplit firstEntryBackend).1 ≠
      (detectP9Twice [] rngSplit firstEntryBackend).2 := by
  have h1 : (detectP9Twice [] rngSplit firstEntryBackend).1.prediction =
      Label.tuberculosis := by
    rw [detectP9Twice]
    dsimp only
    rw [detectP9, serveResult]
    dsimp only [preprocessImage, firstEntryBackend, rngSplit]
    rw [if_pos (by norm_num [tensorSize] : (0 : Nat) < tensorSize)]
    rw [if_pos (by norm_num : (0.9 : ℝ) > 1 - 0.9)]
  have h2 : (detectP9Twice [] rngSplit firstEntryBackend).2.prediction =
      Label.normal := by
    rw [detectP9Twice]
    dsimp only
    rw [detectP9, serveResult]
    dsimp only [preprocessImage, firstEntryBackend, rngSplit, shiftRng]
    rw [if_neg (by norm_num : ¬ (0 + tensorSize < tensorSize))]
    rw [if_neg (by norm_num : ¬ (0.1 : ℝ) > 1 - 0.1)]
  intro h
  rw [h, h2] at h1
  exact absurd h1 (by simp)

/-- C6 amended: a part_009 `detect` call is a deterministic function of the
random values it consumes and nothing else — the image bytes are ignored by
the preprocessing, and two calls whose streams agree on the first
`tensorSize` draws return identical results; two successive calls, however,
consume different segments of the advancing PRNG stream, so identical bytes
do not guarantee identical results. -/
theorem C6_detect_determined_by_stream :
    ∀ (imgBytes imgBytes2 : List Nat) (rng rng2 : Nat → ℝ)
      (backend : (Fin tensorSize → ℝ) → ℝ × ℝ),
      (∀ n, n < tensorSize → rng n = rng2 n) →
      detectP9 imgBytes rng backend = detectP9 imgBytes2 rng2 backend := by
  intro imgBytes imgBytes2 rng rng2 backend h
  rw [detectP9, detectP9]
  have ht : preprocessImage rng imgBytes = preprocessImage rng2 imgBytes2 := by
    funext i
    exact h i.val i.isLt
  rw [ht]

/-- C6 amended witness: instantiated with `rngSplit` against itself on the
byte lists `[]` and `[5]`. -/
theorem C6_detect_determined_by_stream_witness :
    (∀ n, n < tensorSize → rngSplit n = rngSplit n) ∧
    detectP9 [] rngSplit firstEntryBackend = detectP9 [5] rngSplit firstEntryBackend :=
  ⟨fun _ _ => rfl,
   C6_detect_determined_by_stream [] [5] rngSplit rngSplit firstEntryBackend
     (fun _ _ => rfl)⟩

/-- C9 counterexample: on the logit vector [2, 0.5] the always-softmax hook
and the raw-comparison server disagree on the confidence: the server reports
`round (max 2 0.5 * 100) = 200`, while the softmax hook's confidence is a
rounded probability mass, at most 100. -/
theorem C9_interpreters_disagree :
    detectTBResult 2 0.5 ≠ serveResult 2 0.5 := by
  have hs : (serveResult 2 0.5).confidence = 200 := by
    rw [serveResult]
    dsimp only
    rw [max_eq_left (by norm_num : (0.5 : ℝ) ≤ 2)]
    rw [round_eq_int (n := 200) (by norm_num) (by norm_num)]
  have hsum : 0 < Real.exp 2 + Real.exp 0.5 := by positivity
  have hd : (detectTBResult 2 0.5).confidence ≤ 100 := by
    rw [detectTBResult]
    dsimp only
    have hm : max (Real.exp 2 / (Real.exp 2 + Real.exp 0.5))
        (Real.exp 0.5 / (Real.exp 2 + Real.exp 0.5)) * 100 ≤ 100 := by
      have h0 : Real.exp 2 / (Real.exp 2 + Real.exp 0.5) ≤ 1 := by
        rw [div_le_one hsum]
        nlinarith [Real.exp_pos (0.5 : ℝ)]
      have h1 : Real.exp 0.5 / (Real.exp 2 + Real.exp 0.5) ≤ 1 := by
        rw [div_le_one hsum]
        nlinarith [Real.exp_pos (2 : ℝ)]
      nlinarith [max_le h0 h1]
    calc round (max (Real.exp 2 / (Real.exp 2 + Real.exp 0.5))
            (Real.exp 0.5 / (Real.exp 2 + Real.exp 0.5)) * 100)
        ≤ round (100 : ℝ) := round_mono_le hm
      _ = 100 := round_eq_int (by norm_num) (by norm_num)
  intro h
  rw [h, hs] at hd
  norm_num at hd

/-- C9 amended: the three interpretations agree on the label wherever they
are comparable — the always-softmax hook and the raw-comparison server pick
the same label on every 2-element vector, and the conditional-softmax hook
also agrees whenever the pair is not within 0.01 of summing to 1 — but their
confidences differ in general, as the counterexample shows. -/
theorem C9_labels_agree :
    ∀ s0 s1 : ℝ,
      (detectTBResult s0 s1).prediction = (serveResult s0 s1).prediction ∧
      (0.01 ≤ |s0 + s1 - 1| →
        (predictResult [s0, s1]).prediction = (serveResult s0 s1).prediction) := by
  intro s0 s1
  constructor
  · rw [detectTBResult, serveResult]
    dsimp only
    rw [if_congr (softmax_lt_softmax s0 s1) rfl rfl]
  · intro hge
    have hbr : ¬ |s0 + s1 - 1| < 0.01 := not_lt.mpr hge
    rw [predictResult, predictTBProb, if_neg hbr]
    dsimp only
    rw [serveResult]
    dsimp only
    rw [if_congr (half_lt_softmax s0 s1) rfl rfl]

/-- C9 amended witness: instantiated at the logit vector [2, 0.5], whose sum
is 1.5 away from 1. -/
theorem C9_labels_agree_witness :
    (0.01 : ℝ) ≤ |(2 : ℝ) + 0.5 - 1| ∧
    ((detectTBResult 2 0.5).prediction = (serveResult 2 0.5).prediction ∧
     ((0.01 : ℝ) ≤ |(2 : ℝ) + 0.5 - 1| →
       (predictResult [2, 0.5]).prediction = (serveResult 2 0.5).prediction)) :=
  ⟨by rw [abs_of_nonneg (by norm_num : (0 : ℝ) ≤ 2 + 0.5 - 1)]; norm_num,
   C9_labels_agree 2 0.5⟩

/-- C10: whenever the scores form a genuine 2-class probability distribution,
the reported confidence of the express handler (identically, the serve
variants) and of the browser hook is an integer between 50 and 100. -/
theorem C10_confidence_at_least_half :
    ∀ p0 p1 : ℝ, 0 ≤ p0 → 0 ≤ p1 → p0 + p1 = 1 →
      (50 ≤ (expressResult p0 p1).confidence ∧
       (expressResult p0 p1).confidence ≤ 100) ∧
      ∃ c : ℤ, (predictResult [p0, p1]).confidence = some c ∧ 50 ≤ c ∧ c ≤ 100 := by
  intro p0 p1 h0 h1 hsum
  have hmax_lo : (1 : ℝ) / 2 ≤ max p0 p1 := by
    rcases le_total p0 p1 with h | h
    · rw [max_eq_right h]; linarith
    · rw [max_eq_left h]; linarith
  have hmax_hi : max p0 p1 ≤ 1 := max_le (by linarith) (by linarith)
  constructor
  · rw [expressResult]
    dsimp only
    constructor
    · calc (50 : ℤ) = round (50 : ℝ) := (round_eq_int (by norm_num) (by norm_num)).symm
        _ ≤ round (max p0 p1 * 100) := round_mono_le (by nlinarith)
    · calc round (max p0 p1 * 100) ≤ round (100 : ℝ) := round_mono_le (by nlinarith)
        _ = 100 := round_eq_int (by norm_num) (by norm_num)
  · rw [predictResult, predictTBProb]
    rw [if_pos (by rw [hsum]; norm_num : |p0 + p1 - 1| < 0.01)]
    dsimp only
    refine ⟨_, rfl, ?_, ?_⟩
    · rw [conf_eq_max]
      have hlo : (1 : ℝ) / 2 ≤ max p1 (1 - p1) := by
        rcases le_total p1 (1 - p1) with h | h
        · rw [max_eq_right h]; linarith
        · rw [max_eq_left h]; linarith
      calc (50 : ℤ) = round (50 : ℝ) := (round_eq_int (by norm_num) (by norm_num)).symm
        _ ≤ round (100 * max p1 (1 - p1)) := round_mono_le (by nlinarith)
    · rw [conf_eq_max]
      have hhi : max p1 (1 - p1) ≤ 1 := max_le (by linarith) (by linarith)
      calc round (100 * max p1 (1 - p1)) ≤ round (100 : ℝ) :=
            round_mono_le (by nlinarith)
        _ = 100 := round_eq_int (by norm_num) (by norm_num)

/-- C10 witness: instantiated at the probability pair (0.3, 0.7). -/
theorem C10_confidence_at_least_half_witness :
    (0 : ℝ) ≤ 0.3 ∧ (0 : ℝ) ≤ 0.7 ∧ (0.3 : ℝ) + 0.7 = 1 ∧
    ((50 ≤ (expressResult 0.3 0.7).confidence ∧
      (expressResult 0.3 0.7).confidence ≤ 100) ∧
     ∃ c : ℤ, (predictResult [0.3, 0.7]).confidence = some c ∧ 50 ≤ c ∧ c ≤ 100) :=
  ⟨by norm_num, by norm_num, by norm_num,
   C10_confidence_at_least_half 0.3 0.7 (by norm_num) (by norm_num) (by norm_num)⟩

end TBVision
